import Mathlib

/-!
Shallow embedding of the two command-line tools of the repository
(`change_id.py` and `custom_list.py`).

The external ST3215 servo driver is modelled as an abstract `Driver`
record of pure response functions; every driver call a run performs is
recorded, in order, in a trace of `Ev` events, so temporal claims
("never calls", "at most once", "before any bus I/O") become statements
about the trace.  Python's `None`-returning `ChangeId` success sentinel
becomes `Option String` (`none` = success, `some e` = error detail),
the environment is `Option String` (`none` = unset), and uncaught
exceptions (`EnvironmentError`, `EOFError`) become distinguished result
constructors.  User input lines in interactive mode are modelled as
tokens classifying how the source inspects a stripped line: the quit
sentinel, the affirmative "y", a line `int()` parses, or any other
non-integer line.
-/

namespace ServoTools

/-- The error message raised by `get_serial_port` in both tools when the
`ST3215_DEV` environment variable is unset or empty (change_id.py lines
22-25, custom_list.py lines 20-23). -/
def envErrorMsg : String :=
  "ST3215_DEV environment variable not set.\nPlease create a .env file with: ST3215_DEV=/dev/tty.usbmodem5A680113571"

/-- `get_serial_port`: reads `ST3215_DEV`; `none` (unset) and `""` are
both falsy under the source's `if not port`, raising `EnvironmentError`
(modelled as `Except.error` carrying the message). -/
def get_serial_port (env : Option String) : Except String String :=
  match env with
  | none => Except.error envErrorMsg
  | some p => if p = "" then Except.error envErrorMsg else Except.ok p

/-- The abstract servo driver (the external `st3215.ST3215` collaborator):
whether opening the serial port succeeds, the pre-write `PingServo`
responses, the post-`ChangeId` `PingServo` responses, the `ListServos`
snapshot, and the `ChangeId` result (`none` = success sentinel, as the
Python method returns `None` on success). -/
structure Driver where
  openOk : Bool
  ping : Int → Bool
  pingPost : Int → Bool
  listIds : List Int
  changeIdRes : Int → Int → Option String

/-- One recorded driver interaction (or the `from st3215 import ST3215`
module import, which the temporal claims talk about). -/
inductive Ev where
  | importDriver
  | openConn
  | listServosEv
  | ping (id : Int)
  | pingPost (id : Int)
  | changeId (fromId toId : Int)
  | readPosition (id : Int)
  | readVoltage (id : Int)
  | readTemperature (id : Int)
  | readMode (id : Int)
  | readLoad (id : Int)
  deriving DecidableEq

/-- Whether an event is an ID-write (`ChangeId`) invocation. -/
def isChangeEv : Ev → Bool
  | Ev.changeId _ _ => true
  | _ => false

/-- How many `ChangeId` invocations a trace records. -/
def changeCount (tr : List Ev) : Nat := (tr.filter isChangeEv).length

/-- Outcome of `find_single_servo` (change_id.py lines 29-48).  The three
source branches are observably distinct (each prints a different
message before returning): empty scan, more than one servo (the list is
reported), or exactly one servo (its id is returned). -/
inductive FindResult where
  | noneFound
  | ambiguous (ids : List Int)
  | found (id : Int)
  deriving DecidableEq

/-- `find_single_servo`: `if not servo_ids` → none found; `if
len(servo_ids) > 1` → ambiguous; else `return servo_ids[0]`. -/
def find_single_servo (servo_ids : List Int) : FindResult :=
  if servo_ids.isEmpty then FindResult.noneFound
  else if servo_ids.length > 1 then FindResult.ambiguous servo_ids
  else FindResult.found (servo_ids.headD 0)

/-- Result of `change_servo_id`: the uncaught `EnvironmentError` from
`get_serial_port`, the caught serial-open failure (returns `False`), or
the function's boolean return value. -/
inductive CRes where
  | envError
  | openError
  | ok (success : Bool)
  deriving DecidableEq

/-- `change_servo_id` (change_id.py lines 51-98), with its driver-call
trace.  Order of effects in the source: driver import, env lookup
(may raise), open (failure caught, returns False), `PingServo(current_id)`
(on failure: diagnostic `ListServos`, return False), the occupied-address
check `current_id != new_id and PingServo(new_id)` (short-circuit: the
second ping only happens when the ids differ), then `ChangeId`; on the
`None` success sentinel a verification `PingServo(new_id)` is issued
(its outcome only affects printing) and True is returned, otherwise
False. -/
def change_servo_id (env : Option String) (d : Driver) (current_id new_id : Int) :
    CRes × List Ev :=
  match get_serial_port env with
  | Except.error _ => (CRes.envError, [Ev.importDriver])
  | Except.ok _ =>
    if d.openOk = false then (CRes.openError, [Ev.importDriver, Ev.openConn])
    else if d.ping current_id = false then
      (CRes.ok false, [Ev.importDriver, Ev.openConn, Ev.ping current_id, Ev.listServosEv])
    else if current_id ≠ new_id ∧ d.ping new_id = true then
      (CRes.ok false, [Ev.importDriver, Ev.openConn, Ev.ping current_id, Ev.ping new_id])
    else
      let pre := [Ev.importDriver, Ev.openConn, Ev.ping current_id] ++
        (if current_id ≠ new_id then [Ev.ping new_id] else [])
      match d.changeIdRes current_id new_id with
      | none => (CRes.ok true, pre ++ [Ev.changeId current_id new_id, Ev.pingPost new_id])
      | some _ => (CRes.ok false, pre ++ [Ev.changeId current_id new_id])

/-- One stripped line of interactive input, classified the way the source
inspects it: the quit sentinel (lowercases to "q"), the affirmative
confirmation (lowercases to "y", which `int()` rejects), a line `int()`
parses to `n`, or any other line `int()` rejects. -/
inductive UserInput where
  | q
  | yes
  | num (n : Int)
  | other
  deriving DecidableEq

/-- How the new-ID prompt loop of `interactive_mode` (change_id.py lines
139-159) ends: input exhausted (`EOFError`), user quit, the entered id
equals the current id (immediate return), or an in-range different id
was accepted (`break`), with the input remaining for the confirmation
prompt. -/
inductive LoopOut where
  | eof
  | quit
  | eqCurrent
  | chosen (n : Int) (rest : List UserInput)
  deriving DecidableEq

/-- The new-ID prompt loop: quit on "q"; `ValueError` re-prompts; an
out-of-range integer re-prompts; an in-range integer equal to
`current_id` returns at once; otherwise the loop breaks with the id. -/
def id_prompt_loop (current_id : Int) : List UserInput → LoopOut
  | [] => LoopOut.eof
  | UserInput.q :: _ => LoopOut.quit
  | UserInput.yes :: rest => id_prompt_loop current_id rest
  | UserInput.other :: rest => id_prompt_loop current_id rest
  | UserInput.num n :: rest =>
    if ¬(1 ≤ n ∧ n ≤ 253) then id_prompt_loop current_id rest
    else if n = current_id then LoopOut.eqCurrent
    else LoopOut.chosen n rest

/-- Outcome of `interactive_mode` (the Python function always returns
`None`; these constructors record which observably distinct exit was
taken: uncaught env error, caught open failure, locate failure, input
exhausted (`EOFError`), user quit, the no-op equal-id return, cancelled
at confirmation, or a performed write with its success). -/
inductive IRes where
  | envError
  | openError
  | locateFail
  | eofCrash
  | userQuit
  | noopEqual
  | cancelled
  | changed (success : Bool)
  deriving DecidableEq

/-- `interactive_mode` (change_id.py lines 101-181): driver import, env
lookup, open, `find_single_servo` (via `ListServos`), telemetry prints
(`ReadPosition`, `ReadVoltage`), the new-ID prompt loop, the `y`
confirmation, then `ChangeId` and, on its `None` success sentinel, a
verification `PingServo(new_id)`. -/
def interactive_mode (env : Option String) (d : Driver) (inputs : List UserInput) :
    IRes × List Ev :=
  match get_serial_port env with
  | Except.error _ => (IRes.envError, [Ev.importDriver])
  | Except.ok _ =>
    if d.openOk = false then (IRes.openError, [Ev.importDriver, Ev.openConn])
    else
      match find_single_servo d.listIds with
      | FindResult.noneFound => (IRes.locateFail, [Ev.importDriver, Ev.openConn, Ev.listServosEv])
      | FindResult.ambiguous _ => (IRes.locateFail, [Ev.importDriver, Ev.openConn, Ev.listServosEv])
      | FindResult.found current_id =>
        let pre := [Ev.importDriver, Ev.openConn, Ev.listServosEv,
          Ev.readPosition current_id, Ev.readVoltage current_id]
        match id_prompt_loop current_id inputs with
        | LoopOut.eof => (IRes.eofCrash, pre)
        | LoopOut.quit => (IRes.userQuit, pre)
        | LoopOut.eqCurrent => (IRes.noopEqual, pre)
        | LoopOut.chosen new_id rest =>
          match rest with
          | [] => (IRes.eofCrash, pre)
          | confirm :: _ =>
            if confirm ≠ UserInput.yes then (IRes.cancelled, pre)
            else
              match d.changeIdRes current_id new_id with
              | none =>
                (IRes.changed true, pre ++ [Ev.changeId current_id new_id, Ev.pingPost new_id])
              | some _ => (IRes.changed false, pre ++ [Ev.changeId current_id new_id])

/-- A command-line argument of the ID changer as `int()` sees it: a line
parsing to an integer, or one raising `ValueError`. -/
inductive Arg where
  | int (n : Int)
  | notInt
  deriving DecidableEq

/-- The message printed when `current_id` is out of range (change_id.py
line 217). -/
def rangeMsgCurrent : String := "Error: Current ID must be between 1 and 253"

/-- The message printed when `new_id` is out of range (change_id.py
line 220). -/
def rangeMsgNew : String := "Error: New ID must be between 1 and 253"

/-- The message printed when an argument is not an integer (change_id.py
line 226). -/
def intMsg : String := "Error: IDs must be integers"

/-- Observable outcome of one run of the ID changer's `__main__` block:
process exit code, whether `print_usage()` ran, the error messages the
block itself printed, and the driver-call trace. -/
structure MainOut where
  exitCode : Nat
  printedUsage : Bool
  msgs : List String
  events : List Ev
  deriving DecidableEq

/-- The `__main__` block of change_id.py (lines 206-231): no arguments →
interactive mode (exit 1 only on an uncaught exception: env error or
`EOFError`); exactly two arguments → parse both with `int()` (a
`ValueError` prints the integer message and usage, exit 1), range-check
each (out of range prints only the range message, exit 1, before any
driver work), then run `change_servo_id` and exit 0 on True, 1
otherwise (an uncaught env error also exits 1); any other argument
count → usage, exit 1. -/
def main_prog (env : Option String) (d : Driver) (inputs : List UserInput)
    (args : List Arg) : MainOut :=
  match args with
  | [] =>
    let r := interactive_mode env d inputs
    { exitCode := if r.1 = IRes.envError ∨ r.1 = IRes.eofCrash then 1 else 0,
      printedUsage := false, msgs := [], events := r.2 }
  | [Arg.int ca, Arg.int nb] =>
    if ¬(1 ≤ ca ∧ ca ≤ 253) then
      { exitCode := 1, printedUsage := false, msgs := [rangeMsgCurrent], events := [] }
    else if ¬(1 ≤ nb ∧ nb ≤ 253) then
      { exitCode := 1, printedUsage := false, msgs := [rangeMsgNew], events := [] }
    else
      let r := change_servo_id env d ca nb
      { exitCode := if r.1 = CRes.ok true then 0 else 1,
        printedUsage := false, msgs := [], events := r.2 }
  | [_, _] => { exitCode := 1, printedUsage := true, msgs := [intMsg], events := [] }
  | _ => { exitCode := 1, printedUsage := true, msgs := [], events := [] }

/-- Result of the reporter tool `list_servos` (custom_list.py lines
27-93): uncaught env error, caught open failure, or a completed scan
with the number of servos reported. -/
inductive LRes where
  | envError
  | openError
  | done (count : Nat)
  deriving DecidableEq

/-- The telemetry reads the reporter issues for one servo, in source
order (custom_list.py lines 57-87). -/
def servo_report_evs (servo_id : Int) : List Ev :=
  [Ev.readPosition servo_id, Ev.readVoltage servo_id, Ev.readTemperature servo_id,
    Ev.readMode servo_id, Ev.readLoad servo_id]

/-- `list_servos` of custom_list.py: driver import, env lookup, open,
`ListServos`, then the per-servo telemetry reads. -/
def list_servos_run (env : Option String) (d : Driver) : LRes × List Ev :=
  match get_serial_port env with
  | Except.error _ => (LRes.envError, [Ev.importDriver])
  | Except.ok _ =>
    if d.openOk = false then (LRes.openError, [Ev.importDriver, Ev.openConn])
    else if d.listIds.isEmpty then
      (LRes.done 0, [Ev.importDriver, Ev.openConn, Ev.listServosEv])
    else
      (LRes.done d.listIds.length,
        [Ev.importDriver, Ev.openConn, Ev.listServosEv] ++
          (d.listIds.map servo_report_evs).flatten)

/-- The reporter's position-to-degrees mapping (custom_list.py line 59):
`degrees = (position / 4096) * 360`, exact here over the rationals (the
float computation is exact for integer positions below 2^12, since the
divisor is a power of two and the scaled numerator fits the mantissa). -/
def position_degrees (position : ℚ) : ℚ := position / 4096 * 360

/-- Whether the prompt loop re-prompts on this token without accepting
it: a non-integer non-quit line, or an out-of-range integer. -/
def reprompts : UserInput → Bool
  | UserInput.q => false
  | UserInput.yes => true
  | UserInput.other => true
  | UserInput.num n => decide (¬(1 ≤ n ∧ n ≤ 253))

/-- A driver with servos at ids 1 and 2 (both respond to ping). -/
def dBusy : Driver :=
  { openOk := true, ping := fun _ => true, pingPost := fun _ => true,
    listIds := [1, 2], changeIdRes := fun _ _ => none }

/-- A driver with no servos on the bus. -/
def dEmpty : Driver :=
  { openOk := true, ping := fun _ => false, pingPost := fun _ => false,
    listIds := [], changeIdRes := fun _ _ => none }

/-- A driver with a single servo at id 5. -/
def dOne5 : Driver :=
  { openOk := true, ping := fun i => i = 5, pingPost := fun _ => true,
    listIds := [5], changeIdRes := fun _ _ => none }

/-- C1: collision guard.  Whenever `new_id ≠ current_id` and the driver's
presence check on `new_id` responds, `change_servo_id` never reaches a
successful outcome and its trace records no `ChangeId` invocation, for
every environment and every such driver. -/
theorem c1_collision_guard (env : Option String) (d : Driver) (current_id new_id : Int)
    (hne : new_id ≠ current_id) (hping : d.ping new_id = true) :
    (change_servo_id env d current_id new_id).1 ≠ CRes.ok true ∧
      changeCount (change_servo_id env d current_id new_id).2 = 0 := by
  unfold change_servo_id
  cases hgp : get_serial_port env with
  | error e => simp [changeCount, isChangeEv]
  | ok p =>
    by_cases ho : d.openOk = false
    · simp [ho, changeCount, isChangeEv]
    · by_cases hc : d.ping current_id = false
      · simp [ho, hc, changeCount, isChangeEv]
      · have hguard : current_id ≠ new_id ∧ d.ping new_id = true :=
          ⟨fun h => hne h.symm, hping⟩
        simp [ho, hc, hguard, changeCount, isChangeEv]

/-- C1 witness: with both ids 1 and 2 occupied on the bus, changing 1 to 2
fails with no write issued. -/
theorem c1_collision_guard_witness :
    (change_servo_id (some "p") dBusy 1 2).1 ≠ CRes.ok true ∧
      changeCount (change_servo_id (some "p") dBusy 1 2).2 = 0 :=
  c1_collision_guard (some "p") dBusy 1 2 (by decide) rfl

/-- C2: if the presence check on `current_id` fails, `change_servo_id`
never reaches a successful outcome and its trace records no `ChangeId`
invocation, for every environment and every such driver. -/
theorem c2_ping_current_fail_aborts (env : Option String) (d : Driver)
    (current_id new_id : Int) (h : d.ping current_id = false) :
    (change_servo_id env d current_id new_id).1 ≠ CRes.ok true ∧
      changeCount (change_servo_id env d current_id new_id).2 = 0 := by
  unfold change_servo_id
  cases hgp : get_serial_port env with
  | error e => simp [changeCount, isChangeEv]
  | ok p =>
    by_cases ho : d.openOk = false
    · simp [ho, changeCount, isChangeEv]
    · simp [ho, h, changeCount, isChangeEv]

/-- C2 witness: on an empty bus, changing 1 to 2 fails with no write
issued. -/
theorem c2_ping_current_fail_aborts_witness :
    (change_servo_id (some "p") dEmpty 1 2).1 ≠ CRes.ok true ∧
      changeCount (change_servo_id (some "p") dEmpty 1 2).2 = 0 :=
  c2_ping_current_fail_aborts (some "p") dEmpty 1 2 rfl

/-- C3: `find_single_servo` is a trichotomy over the `ListServos` result:
none-found iff the list is empty, ambiguous iff its length exceeds 1,
and the sole identifier iff the list is exactly that singleton. -/
theorem c3_locate_trichotomy (ids : List Int) :
    (find_single_servo ids = FindResult.noneFound ↔ ids = []) ∧
      (find_single_servo ids = FindResult.ambiguous ids ↔ 1 < ids.length) ∧
      (∀ i : Int, find_single_servo ids = FindResult.found i ↔ ids = [i]) := by
  match ids with
  | [] => simp [find_single_servo]
  | [a] => simp [find_single_servo]
  | a :: b :: t =>
    refine ⟨by simp [find_single_servo], by simp [find_single_servo], fun i => ?_⟩
    simp [find_single_servo]

/-- C4: whenever the `ChangeId` write actually appears in the trace, the
workflow's overall outcome is success exactly when the write itself
returned the success sentinel — independent of the post-write
verification ping, whose responses (`pingPost`) are arbitrary here. -/
theorem c4_write_success_authoritative (env : Option String) (d : Driver)
    (current_id new_id : Int)
    (h : Ev.changeId current_id new_id ∈ (change_servo_id env d current_id new_id).2) :
    ((change_servo_id env d current_id new_id).1 = CRes.ok true ↔
      d.changeIdRes current_id new_id = none) := by
  unfold change_servo_id at h ⊢
  cases hgp : get_serial_port env with
  | error e => rw [hgp] at h; simp at h
  | ok p =>
    rw [hgp] at h
    by_cases ho : d.openOk = false
    · simp [ho] at h
    · by_cases hc : d.ping current_id = false
      · simp [ho, hc] at h
      · by_cases hg : current_id ≠ new_id ∧ d.ping new_id = true
        · simp [ho, hc, hg] at h
        · cases hres : d.changeIdRes current_id new_id with
          | none => simp [ho, hc, hg, hres]
          | some e => simp [ho, hc, hg, hres]

/-- C4 witness: a free target id 9 with a servo at 5 and a succeeding
write: the write appears in the trace and the workflow succeeds. -/
theorem c4_write_success_authoritative_witness :
    (change_servo_id (some "p") dOne5 5 9).1 = CRes.ok true ↔
      dOne5.changeIdRes 5 9 = none :=
  c4_write_success_authoritative (some "p") dOne5 5 9 (by decide)

/-- The prompt loop ignores any sequence of re-prompting tokens
(non-integer lines, out-of-range integers). -/
theorem id_prompt_loop_drop_reprompts (current_id : Int) (pre rest : List UserInput)
    (h : ∀ t ∈ pre, reprompts t = true) :
    id_prompt_loop current_id (pre ++ rest) = id_prompt_loop current_id rest := by
  induction pre with
  | nil => rfl
  | cons t ts ih =>
    have ht : reprompts t = true := h t (List.mem_cons_self t ts)
    have hts : ∀ u ∈ ts, reprompts u = true := fun u hu => h u (List.mem_cons_of_mem t hu)
    cases t with
    | q => simp [reprompts] at ht
    | yes => simpa [id_prompt_loop] using ih hts
    | other => simpa [id_prompt_loop] using ih hts
    | num n =>
      have hn : ¬(1 ≤ n ∧ n ≤ 253) := of_decide_eq_true ht
      simpa [id_prompt_loop, hn] using ih hts

/-- C5: in interactive mode with a single located servo `current_id`
(in range), entering `current_id` as the new id — after any number of
re-prompted invalid entries — returns immediately as a no-op: the run's
outcome and trace are independent of all later input (so no
confirmation is read) and contain no `ChangeId` invocation. -/
theorem c5_interactive_equal_noop (env : Option String) (p : String) (d : Driver)
    (current_id : Int) (pre rest : List UserInput)
    (henv : env = some p) (hp : p ≠ "")
    (hopen : d.openOk = true) (hlist : d.listIds = [current_id])
    (h1 : 1 ≤ current_id) (h2 : current_id ≤ 253)
    (hpre : ∀ t ∈ pre, reprompts t = true) :
    interactive_mode env d (pre ++ UserInput.num current_id :: rest) =
      (IRes.noopEqual,
        [Ev.importDriver, Ev.openConn, Ev.listServosEv,
          Ev.readPosition current_id, Ev.readVoltage current_id]) := by
  subst henv
  have hloop : id_prompt_loop current_id (pre ++ UserInput.num current_id :: rest) =
      LoopOut.eqCurrent := by
    rw [id_prompt_loop_drop_reprompts current_id pre _ hpre]
    simp [id_prompt_loop, h1, h2]
  simp [interactive_mode, get_serial_port, hp, hopen, hlist, find_single_servo, hloop]

/-- C5 witness: servo located at id 5; after one invalid line the user
enters 5; the run is the no-op success with no confirmation consumed
and no write, whatever follows on input. -/
theorem c5_interactive_equal_noop_witness :
    interactive_mode (some "p") dOne5
        ([UserInput.other] ++ UserInput.num 5 :: [UserInput.yes]) =
      (IRes.noopEqual,
        [Ev.importDriver, Ev.openConn, Ev.listServosEv,
          Ev.readPosition 5, Ev.readVoltage 5]) :=
  c5_interactive_equal_noop (some "p") "p" dOne5 5 [UserInput.other] [UserInput.yes]
    rfl (by decide) rfl rfl (by decide) (by decide)
    (by intro t ht; simp at ht; subst ht; rfl)

/-- C6: in direct mode with equal in-range ids and a responding servo,
the equal-id case is not special-cased: the run pings `current_id`
once, skips the occupied-address ping (the ids are equal), issues the
`ChangeId` write, and exits 0 exactly when the write succeeds. -/
theorem c6_direct_equal_not_special (env : Option String) (p : String) (d : Driver)
    (inputs : List UserInput) (c : Int)
    (henv : env = some p) (hp : p ≠ "") (hopen : d.openOk = true)
    (h1 : 1 ≤ c) (h2 : c ≤ 253) (hping : d.ping c = true) :
    main_prog env d inputs [Arg.int c, Arg.int c] =
      { exitCode := if d.changeIdRes c c = none then 0 else 1,
        printedUsage := false, msgs := [],
        events := [Ev.importDriver, Ev.openConn, Ev.ping c] ++
          (if d.changeIdRes c c = none then [Ev.changeId c c, Ev.pingPost c]
            else [Ev.changeId c c]) } := by
  subst henv
  have hrange : 1 ≤ c ∧ c ≤ 253 := ⟨h1, h2⟩
  cases hres : d.changeIdRes c c with
  | none =>
    simp [main_prog, hrange, change_servo_id, get_serial_port, hp, hopen, hping, hres]
  | some e =>
    simp [main_prog, hrange, change_servo_id, get_serial_port, hp, hopen, hping, hres]

/-- C6 witness: direct mode `2 2` with a servo at 2 on the bus (dBusy):
one ping, then the write, exit 0. -/
theorem c6_direct_equal_not_special_witness :
    main_prog (some "p") dBusy [] [Arg.int 2, Arg.int 2] =
      { exitCode := if dBusy.changeIdRes 2 2 = none then 0 else 1,
        printedUsage := false, msgs := [],
        events := [Ev.importDriver, Ev.openConn, Ev.ping 2] ++
          (if dBusy.changeIdRes 2 2 = none then [Ev.changeId 2 2, Ev.pingPost 2]
            else [Ev.changeId 2 2]) } :=
  c6_direct_equal_not_special (some "p") "p" dBusy [] 2 rfl (by decide) rfl
    (by decide) (by decide) rfl

/-- C7 counterexample: with the environment variable unset, both tools do
fail with the configuration error — but NOT before the driver is
imported: `from st3215 import ST3215` executes first in each workflow
function, so the import event precedes the failure in the trace,
contradicting the claim's "before the driver is imported". -/
theorem c7_counterexample_import_precedes :
    (list_servos_run none dOne5).1 = LRes.envError ∧
      Ev.importDriver ∈ (list_servos_run none dOne5).2 ∧
      (change_servo_id none dOne5 1 2).1 = CRes.envError ∧
      Ev.importDriver ∈ (change_servo_id none dOne5 1 2).2 ∧
      (interactive_mode none dOne5 []).1 = IRes.envError ∧
      Ev.importDriver ∈ (interactive_mode none dOne5 []).2 := by decide

/-- C7 amended: with the environment variable unset or empty, every
workflow of either tool fails with the configuration error that names
`ST3215_DEV` and how to supply it, before any connection is opened and
before any device I/O — the trace holds only the driver-module import,
which precedes the environment check. -/
theorem c7_config_error_before_io (env : Option String) (d : Driver)
    (current_id new_id : Int) (inputs : List UserInput)
    (h : env = none ∨ env = some "") :
    change_servo_id env d current_id new_id = (CRes.envError, [Ev.importDriver]) ∧
      interactive_mode env d inputs = (IRes.envError, [Ev.importDriver]) ∧
      list_servos_run env d = (LRes.envError, [Ev.importDriver]) ∧
      get_serial_port env = Except.error envErrorMsg := by
  have hgp : get_serial_port env = Except.error envErrorMsg := by
    rcases h with h | h <;> subst h <;> simp [get_serial_port]
  refine ⟨?_, ?_, ?_, hgp⟩ <;>
    simp [change_servo_id, interactive_mode, list_servos_run, hgp]

/-- C7 amended witness: unset environment, a bus with one servo. -/
theorem c7_config_error_before_io_witness :
    change_servo_id none dOne5 3 4 = (CRes.envError, [Ev.importDriver]) ∧
      interactive_mode none dOne5 [] = (IRes.envError, [Ev.importDriver]) ∧
      list_servos_run none dOne5 = (LRes.envError, [Ev.importDriver]) ∧
      get_serial_port none = Except.error envErrorMsg :=
  c7_config_error_before_io none dOne5 3 4 [] (Or.inl rfl)

/-- C8 counterexample: direct mode with out-of-range `current_id = 0`
rejects with exit code 1 and no bus I/O, but prints only the range
error message — `print_usage()` is not run, contradicting the claim's
"prints usage". -/
theorem c8_counterexample_no_usage :
    (main_prog (some "p") dOne5 [] [Arg.int 0, Arg.int 5]).printedUsage = false ∧
      (main_prog (some "p") dOne5 [] [Arg.int 0, Arg.int 5]).exitCode = 1 ∧
      (main_prog (some "p") dOne5 [] [Arg.int 0, Arg.int 5]).msgs = [rangeMsgCurrent] ∧
      (main_prog (some "p") dOne5 [] [Arg.int 0, Arg.int 5]).events = [] := by decide

/-- C8 amended: in direct mode, any integer argument outside [1, 253]
is rejected before any bus I/O (the trace is empty: no import, open,
ping or write), with exit code 1 and exactly the range-error message
naming the offending argument — current_id's message when current_id is
out of range (it is checked first), otherwise new_id's message — and
the usage text is not printed. -/
theorem c8_range_rejected_before_io (env : Option String) (d : Driver)
    (inputs : List UserInput) (ca nb : Int)
    (h : ¬(1 ≤ ca ∧ ca ≤ 253) ∨ ¬(1 ≤ nb ∧ nb ≤ 253)) :
    (main_prog env d inputs [Arg.int ca, Arg.int nb]).exitCode = 1 ∧
      (main_prog env d inputs [Arg.int ca, Arg.int nb]).printedUsage = false ∧
      (main_prog env d inputs [Arg.int ca, Arg.int nb]).events = [] ∧
      (main_prog env d inputs [Arg.int ca, Arg.int nb]).msgs =
        (if ¬(1 ≤ ca ∧ ca ≤ 253) then [rangeMsgCurrent] else [rangeMsgNew]) := by
  by_cases hca : 1 ≤ ca ∧ ca ≤ 253
  · have hnb : ¬(1 ≤ nb ∧ nb ≤ 253) := by
      rcases h with h | h
      · exact absurd hca h
      · exact h
    simp [main_prog, hca, hnb]
  · simp [main_prog, hca]

/-- C8 amended witness: direct mode `-7 300`: rejected with exit 1, no
events, exactly the current-id range message (current_id is the first
offending argument), usage not printed. -/
theorem c8_range_rejected_before_io_witness :
    (main_prog (some "p") dOne5 [] [Arg.int (-7), Arg.int 300]).exitCode = 1 ∧
      (main_prog (some "p") dOne5 [] [Arg.int (-7), Arg.int 300]).printedUsage = false ∧
      (main_prog (some "p") dOne5 [] [Arg.int (-7), Arg.int 300]).events = [] ∧
      (main_prog (some "p") dOne5 [] [Arg.int (-7), Arg.int 300]).msgs =
        (if ¬(1 ≤ (-7 : Int) ∧ (-7 : Int) ≤ 253) then [rangeMsgCurrent] else [rangeMsgNew]) :=
  c8_range_rejected_before_io (some "p") dOne5 [] (-7) 300 (Or.inl (by decide))

/-- C9: for every integer position p ≤ 4095 the reporter's degree value
equals p × 360 / 4096 and lies between 0 and 360. -/
theorem c9_position_degrees_range (p : ℕ) (h : p ≤ 4095) :
    position_degrees (p : ℚ) = (p : ℚ) * 360 / 4096 ∧
      0 ≤ position_degrees (p : ℚ) ∧ position_degrees (p : ℚ) ≤ 360 := by
  unfold position_degrees
  refine ⟨by ring, by positivity, ?_⟩
  have hp : (p : ℚ) ≤ 4095 := by exact_mod_cast h
  rw [div_mul_eq_mul_div, div_le_iff₀ (by norm_num)]
  nlinarith

/-- C9 witness: the maximal position 4095 maps to 4095 × 360 / 4096,
within 0–360. -/
theorem c9_position_degrees_range_witness :
    position_degrees ((4095 : ℕ) : ℚ) = ((4095 : ℕ) : ℚ) * 360 / 4096 ∧
      0 ≤ position_degrees ((4095 : ℕ) : ℚ) ∧ position_degrees ((4095 : ℕ) : ℚ) ≤ 360 :=
  c9_position_degrees_range 4095 (by decide)

/-- Any run of `change_servo_id` issues at most one `ChangeId` write. -/
theorem changeCount_change_servo_id_le_one (env : Option String) (d : Driver)
    (current_id new_id : Int) :
    changeCount (change_servo_id env d current_id new_id).2 ≤ 1 := by
  unfold change_servo_id
  cases hgp : get_serial_port env with
  | error e => simp [changeCount, isChangeEv]
  | ok p =>
    by_cases ho : d.openOk = false
    · simp [ho, changeCount, isChangeEv]
    · by_cases hc : d.ping current_id = false
      · simp [ho, hc, changeCount, isChangeEv]
      · by_cases hg : current_id ≠ new_id ∧ d.ping new_id = true
        · simp [ho, hc, hg, changeCount, isChangeEv]
        · cases hres : d.changeIdRes current_id new_id with
          | none =>
            by_cases hne : current_id = new_id <;>
              simp [ho, hc, hg, hres, hne, changeCount, isChangeEv] <;>
              split <;> simp [isChangeEv]
          | some e =>
            by_cases hne : current_id = new_id <;>
              simp [ho, hc, hg, hres, hne, changeCount, isChangeEv] <;>
              split <;> simp [isChangeEv]

/-- Any run of `interactive_mode` issues at most one `ChangeId` write. -/
theorem changeCount_interactive_mode_le_one (env : Option String) (d : Driver)
    (inputs : List UserInput) :
    changeCount (interactive_mode env d inputs).2 ≤ 1 := by
  unfold interactive_mode
  cases hgp : get_serial_port env with
  | error e => simp [changeCount, isChangeEv]
  | ok p =>
    by_cases ho : d.openOk = false
    · simp [ho, changeCount, isChangeEv]
    · cases hf : find_single_servo d.listIds with
      | noneFound => simp [ho, hf, changeCount, isChangeEv]
      | ambiguous ids => simp [ho, hf, changeCount, isChangeEv]
      | found current_id =>
        cases hl : id_prompt_loop current_id inputs with
        | eof => simp [ho, hf, hl, changeCount, isChangeEv]
        | quit => simp [ho, hf, hl, changeCount, isChangeEv]
        | eqCurrent => simp [ho, hf, hl, changeCount, isChangeEv]
        | chosen new_id rest =>
          cases rest with
          | nil => simp [ho, hf, hl, changeCount, isChangeEv]
          | cons confirm more =>
            by_cases hy : confirm = UserInput.yes
            · cases hres : d.changeIdRes current_id new_id with
              | none => simp [ho, hf, hl, hy, hres, changeCount, isChangeEv]
              | some e => simp [ho, hf, hl, hy, hres, changeCount, isChangeEv]
            · simp [ho, hf, hl, hy, changeCount, isChangeEv]

/-- C10: one invocation of the ID changer, whatever its arguments,
interactive input and driver responses, issues the `ChangeId` write at
most once: no path repeats or retries the ID write. -/
theorem c10_change_at_most_once (env : Option String) (d : Driver)
    (inputs : List UserInput) (args : List Arg) :
    changeCount (main_prog env d inputs args).events ≤ 1 := by
  match args with
  | [] =>
    simpa [main_prog] using changeCount_interactive_mode_le_one env d inputs
  | [Arg.int ca, Arg.int nb] =>
    by_cases hca : 1 ≤ ca ∧ ca ≤ 253
    · by_cases hnb : 1 ≤ nb ∧ nb ≤ 253
      · simpa [main_prog, hca, hnb] using changeCount_change_servo_id_le_one env d ca nb
      · simp [main_prog, hca, hnb, changeCount]
    · simp [main_prog, hca, changeCount]
  | [Arg.int ca, Arg.notInt] => simp [main_prog, changeCount]
  | [Arg.notInt, b] => simp [main_prog, changeCount]
  | [a] => simp [main_prog, changeCount]
  | a :: b :: c :: t => simp [main_prog, changeCount]

end ServoTools
